import Mathlib

/-
Shallow embedding of the retrying HTTP health/smoke-check engine of this
repository: `scripts/api_smoke_report.py` (Endpoint, Result, build_url,
http_get/run_check, parse_paths_file, load_endpoints, the markdown summary
counts and the `main` driver) and `scripts/health_check.py` (check_once and
its retry loop).

Modelling conventions:
* The network is an oracle `Nat → HttpOutcome` giving, per 1-indexed attempt
  number, what the single `urllib.request.urlopen` call of that attempt does:
  a successfully delivered response (urllib delivers 2xx/3xx responses this
  way), an `urllib.error.HTTPError` (how urllib surfaces 4xx/5xx statuses),
  an `urllib.error.URLError` (transport failure), or another exception.
* Wall-clock timing is environmental: per-attempt durations come from a
  `durOf : Nat → Nat` environment function (milliseconds as naturals); the
  `timeout` argument only bounds real network time inside `urlopen`, which the
  oracle absorbs, so it is not a parameter of the model.
* Python floats used for the backoff delay are modelled exactly as rationals;
  statuses and parsed integers are `Int` as in Python.
* Raising an exception is modelled by `Except.error`; the instrumented result
  `CheckTrace` records the returned `Result` together with the number of
  HTTP calls made and the list of delays passed to `time.sleep`.
-/

deriving instance DecidableEq for Except

/-- `Endpoint` dataclass of `api_smoke_report.py` (lines 21-25). -/
structure Endpoint where
  path : String
  requires_auth : Bool := false
  expected_status : Int := 200
  deriving DecidableEq, Repr

/-- `Result` dataclass of `api_smoke_report.py` (lines 28-36). -/
structure Result where
  endpoint : Endpoint
  url : String
  status_code : Option Int
  ok : Bool
  skipped : Bool
  message : String
  duration_ms : Option Nat
  deriving DecidableEq, Repr

/-- What one `urlopen` call inside an attempt does, as seen by `run_check`
(the four branches of its try/except, lines 114-142). -/
inductive HttpOutcome where
  | success (status : Int) (body : String)
  | httpError (code : Int) (reason : String) (body : String)
  | urlError (reason : String)
  | otherError (msg : String)
  deriving DecidableEq, Repr

/-- Instrumented outcome of one `run_check` call: the returned `Result`, the
number of HTTP calls made, and the delays slept between attempts. -/
structure CheckTrace where
  result : Result
  calls : Nat
  sleeps : List Rat
  deriving DecidableEq, Repr

/-- Python slicing `body[:2000]` (character based), used by `http_get`
(line 82) and by the `HTTPError` branch of `run_check` (line 136). -/
def take2000 (s : String) : String := String.mk (s.toList.take 2000)

/-- Python truthiness test `not token` on an optional string: true for `None`
and for the empty string (line 94). -/
def tokenFalsy : Option String → Bool
  | none => true
  | some s => s == ""

/-- `path.lstrip("/")`: strip all leading slashes (line 65). -/
def lstripSlashes (s : String) : String :=
  String.mk (s.toList.dropWhile (fun c => c == '/'))

/-- `base_url.rstrip("/")`: strip all trailing slashes (line 64). -/
def rstripSlashes (s : String) : String :=
  String.mk ((s.toList.reverse.dropWhile (fun c => c == '/')).reverse)

/-- `build_url` (lines 61-66): raises `ValueError` on an empty base URL,
otherwise joins stripped base and path with exactly one slash. -/
def build_url (base_url path : String) : Except String String :=
  if base_url = "" then .error ("Base URL must not be empty")
  else .ok (rstripSlashes base_url ++ "/" ++ lstripSlashes path)

/-- The `last_error` string recorded by the three `except` branches of
`run_check` (lines 132-142); `""` for a delivered response (no exception). -/
def errMsg : HttpOutcome → String
  | .success _ _ => ""
  | .httpError c reason body =>
    "HTTPError " ++ toString c ++ ": " ++ reason ++ "; body preview: " ++ take2000 body
  | .urlError reason => "URLError: " ++ reason
  | .otherError m => "Error: " ++ m

/-- The update of the loop variable `status_code` by a failed attempt: only
the `HTTPError` branch assigns it (line 133); the others leave it unchanged. -/
def errStatus : HttpOutcome → Option Int → Option Int
  | .httpError c _ _, _ => some c
  | .success _ _, prev => prev
  | .urlError _, prev => prev
  | .otherError _, prev => prev

/-- Whether an attempt went through one of the `except` branches. -/
def isErrorOutcome : HttpOutcome → Bool
  | .success _ _ => false
  | _ => true

/-- The `while attempt < retries` loop of `run_check` (lines 111-157).
`remaining` counts the iterations still to run, `attempt` the attempts already
made; `delay`, `lastError`, `statusCode`, `durationMs` are the loop variables;
`calls` and `sleeps` instrument HTTP calls and `time.sleep` invocations.
A delivered response returns at once (lines 115-131, whatever its status);
an exception records the failure and, when attempts remain (`attempt <
retries`, line 144), sleeps the current delay and multiplies it by the
backoff; exhaustion falls through to the final `Result` (lines 148-157). -/
def runAttempts (ep : Endpoint) (url : String) (oracle : Nat → HttpOutcome)
    (durOf : Nat → Nat) (backoff : Rat) :
    Nat → Nat → Rat → String → Option Int → Option Nat → Nat → List Rat → CheckTrace
  | 0, _attempt, _delay, lastError, statusCode, durationMs, calls, sleeps =>
    ⟨⟨ep, url, statusCode, false, false,
      if lastError = "" then "Unknown error" else lastError, durationMs⟩, calls, sleeps⟩
  | remaining + 1, attempt, delay, _lastError, statusCode, _durationMs, calls, sleeps =>
    match oracle (attempt + 1) with
    | .success s body =>
      ⟨⟨ep, url, some s, s == ep.expected_status, false,
        if s == ep.expected_status then
          "Status " ++ toString s ++ " (expected " ++ toString ep.expected_status ++ ")"
        else
          "Unexpected status " ++ toString s ++ " (expected " ++
            toString ep.expected_status ++ "); body preview: " ++ take2000 body,
        some (durOf (attempt + 1))⟩, calls + 1, sleeps⟩
    | o =>
      if remaining = 0 then
        runAttempts ep url oracle durOf backoff remaining (attempt + 1) delay
          (errMsg o) (errStatus o statusCode) (some (durOf (attempt + 1))) (calls + 1) sleeps
      else
        runAttempts ep url oracle durOf backoff remaining (attempt + 1) (delay * backoff)
          (errMsg o) (errStatus o statusCode) (some (durOf (attempt + 1))) (calls + 1)
          (sleeps ++ [delay])

/-- `run_check` (lines 85-157): build the URL (raising on an empty base),
return a skipped `Result` when auth is required but no token is set
(lines 94-103), otherwise run the retry loop.  Python's
`while attempt < retries` on an `int` runs `max retries 0` iterations. -/
def run_check (ep : Endpoint) (base_url : String) (token : Option String)
    (retries : Int) (backoff : Rat) (oracle : Nat → HttpOutcome) (durOf : Nat → Nat) :
    Except String CheckTrace :=
  match build_url base_url ep.path with
  | .error e => .error e
  | .ok url =>
    if ep.requires_auth && tokenFalsy token then
      .ok ⟨⟨ep, url, none, false, true,
        "Authentication required but no token provided", none⟩, 0, []⟩
    else
      .ok (runAttempts ep url oracle durOf backoff retries.toNat 0 1 "" none none 0 [])

/-- The exact delay schedule of the loop: `[d, d*b, d*b^2, ...]` of the given
length (the spec's `delay(attempt) = initial * backoff^(attempt-1)`). -/
def geomList (d b : Rat) : Nat → List Rat
  | 0 => []
  | n + 1 => d :: geomList (d * b) b n

/-- Value of the loop variable `status_code` after `r` consecutive failed
attempts starting from attempt `attempt + 1` with previous value `sc`. -/
def lastStatus (oracle : Nat → HttpOutcome) : Option Int → Nat → Nat → Option Int
  | sc, _attempt, 0 => sc
  | sc, attempt, r + 1 => lastStatus oracle (errStatus (oracle (attempt + 1)) sc) (attempt + 1) r

/-- Python whitespace, as used by `str.strip()` and `str.split()`. -/
def isPySpace (c : Char) : Bool :=
  c == ' ' || c == '\t' || c == '\n' || c == '\r' || c == '\x0b' || c == '\x0c'

/-- `str.strip()` on a character list: drop whitespace at both ends. -/
def pyStrip (l : List Char) : List Char :=
  ((l.dropWhile isPySpace).reverse.dropWhile isPySpace).reverse

/-- Accumulator worker for `str.split()` (split on whitespace runs, no empty
pieces). -/
def wordsAux : List Char → List Char → List (List Char)
  | [], acc => if acc = [] then [] else [acc.reverse]
  | c :: cs, acc =>
    if isPySpace c then
      if acc = [] then wordsAux cs [] else acc.reverse :: wordsAux cs []
    else wordsAux cs (c :: acc)

/-- `line.split()` (line 45). -/
def pyWords (l : List Char) : List (List Char) := wordsAux l []

/-- Split on a newline character, keeping empty pieces. -/
def splitLinesAux : List Char → List Char → List (List Char)
  | [], acc => [acc.reverse]
  | c :: cs, acc =>
    if c = '\n' then acc.reverse :: splitLinesAux cs [] else splitLinesAux cs (c :: acc)

/-- `str.splitlines()` (line 41), modelled for `\n`-separated text: like
splitting on `\n` except that a trailing newline adds no empty final line. -/
def pySplitlines (s : String) : List (List Char) :=
  let r := splitLinesAux s.toList []
  match r.getLast? with
  | some [] => r.dropLast
  | _ => r

/-- Digit-string value for `int()`; `none` when a non-digit appears. -/
def digitsValAux : List Char → Nat → Option Nat
  | [], acc => some acc
  | c :: cs, acc =>
    if c.isDigit then digitsValAux cs (acc * 10 + (c.toNat - 48)) else none

/-- A non-empty all-digit run, as the magnitude part of `int()`. -/
def pyParseDigits : List Char → Option Nat
  | [] => none
  | l => digitsValAux l 0

/-- Python `int(str)` (line 52): surrounding whitespace stripped, optional
sign, decimal digits; `ValueError` (here `none`) otherwise. -/
def pyParseInt (l : List Char) : Option Int :=
  match pyStrip l with
  | '+' :: rest => (pyParseDigits rest).map Int.ofNat
  | '-' :: rest => (pyParseDigits rest).map (fun n => -(n : Int))
  | rest => (pyParseDigits rest).map Int.ofNat

/-- `str.lower()` on a character list. -/
def lowerStr (l : List Char) : List Char := l.map Char.toLower

/-- `token.split("=", 1)[1]`: everything after the first `=`. -/
def afterFirstEq : List Char → List Char
  | [] => []
  | c :: cs => if c = '=' then cs else afterFirstEq cs

/-- The token loop of `parse_paths_file` (lines 47-56): `auth` and
`requires_auth` (case-insensitively) set `requires_auth`; `status=NNN` sets
`expected_status` via `int()`, raising on a bad number; anything else raises. -/
def parseLineTokens (rawLine : List Char) : Endpoint → List (List Char) → Except String Endpoint
  | ep, [] => .ok ep
  | ep, tok :: rest =>
    let lowered := lowerStr tok
    if lowered = ("auth").toList ∨ lowered = ("requires_auth").toList then
      parseLineTokens rawLine { ep with requires_auth := true } rest
    else if ("status=").toList.isPrefixOf lowered then
      match pyParseInt (afterFirstEq tok) with
      | some n => parseLineTokens rawLine { ep with expected_status := n } rest
      | none =>
        .error ("Invalid status token \x27" ++ String.mk tok ++ "\x27 in line: " ++ String.mk rawLine)
    else
      .error ("Unknown token \x27" ++ String.mk tok ++ "\x27 in line: " ++ String.mk rawLine)

/-- One iteration of `parse_paths_file`'s line loop (lines 41-57): cut the
line at `#`, strip it, skip it when empty, else the first word is the path and
the remaining words are option tokens. -/
def parseOneLine (rawLine : List Char) : Except String (Option Endpoint) :=
  let line := pyStrip (rawLine.takeWhile (fun c => !(c == '#')))
  if line = [] then .ok none
  else
    match pyWords line with
    | [] => .ok none
    | p :: rest =>
      match parseLineTokens rawLine ⟨String.mk p, false, 200⟩ rest with
      | .error e => .error e
      | .ok ep => .ok (some ep)

/-- Collect the endpoints of all lines, propagating the first `ValueError`. -/
def parseLinesList : List (List Char) → Except String (List Endpoint)
  | [] => .ok []
  | l :: ls =>
    match parseOneLine l with
    | .error e => .error e
    | .ok none => parseLinesList ls
    | .ok (some ep) =>
      match parseLinesList ls with
      | .error e => .error e
      | .ok rest => .ok (ep :: rest)

/-- `parse_paths_file` (lines 39-58), with the file contents passed in place
of the `Path` read. -/
def parse_paths_file (content : String) : Except String (List Endpoint) :=
  parseLinesList (pySplitlines content)

/-- `load_endpoints` (lines 160-168): endpoints from the optional paths file
followed by one default endpoint per `--paths` item; error when none result. -/
def load_endpoints (paths : List String) (pathsFile : Option String) :
    Except String (List Endpoint) :=
  match (match pathsFile with
         | none => Except.ok []
         | some content => parse_paths_file content) with
  | .error e => .error e
  | .ok fileEps =>
    let eps := fileEps ++ paths.map (fun p => { path := p })
    if eps = [] then .error ("No endpoints specified. Provide --paths or --paths-file.")
    else .ok eps

/-- The default-status loop of `main` (lines 243-246): every endpoint whose
`expected_status` is 200 is overwritten with the CLI `--expected-status` when
that differs from 200. -/
def applyDefaultStatus (cliStatus : Int) (eps : List Endpoint) : List Endpoint :=
  eps.map (fun ep =>
    if ep.expected_status = 200 ∧ cliStatus ≠ 200 then { ep with expected_status := cliStatus }
    else ep)

/-- The result loop of `main` (lines 248-251): one `run_check` per endpoint in
order, an uncaught exception aborting the whole run.  `oracles i` is the
network oracle seen by the `i`-th endpoint (0-indexed). -/
def runAll (base_url : String) (token : Option String) (retries : Int) (backoff : Rat)
    (oracles : Nat → Nat → HttpOutcome) (durOf : Nat → Nat) :
    Nat → List Endpoint → Except String (List Result)
  | _, [] => .ok []
  | idx, ep :: rest =>
    match run_check ep base_url token retries backoff (oracles idx) durOf with
    | .error e => .error e
    | .ok tr =>
      match runAll base_url token retries backoff oracles durOf (idx + 1) rest with
      | .error e => .error e
      | .ok more => .ok (tr.result :: more)

/-- `main` of `api_smoke_report.py` (lines 221-271) after argument parsing:
a `load_endpoints` failure is caught and returns exit code 1 (lines 237-241);
otherwise the CLI default status is applied, every endpoint is checked, and
the function returns 0 regardless of failed or skipped results (line 271).
Report writing only formats `results` and catches its own errors, so it does
not affect the exit code and is not modelled.  An exception escaping
`run_check` is uncaught in the source and modelled as `Except.error`. -/
def smoke_main (base_url : String) (paths : List String) (pathsFile : Option String)
    (token : Option String) (retries : Int) (backoff : Rat) (cliStatus : Int)
    (oracles : Nat → Nat → HttpOutcome) (durOf : Nat → Nat) :
    Except String (Nat × List Result) :=
  match load_endpoints paths pathsFile with
  | .error _ => .ok (1, [])
  | .ok eps =>
    match runAll base_url token retries backoff oracles durOf 0 (applyDefaultStatus cliStatus eps) with
    | .error e => .error e
    | .ok results => .ok (0, results)

/-- `passed` count of `write_markdown` (line 191). -/
def mdPassed (rs : List Result) : Nat := rs.countP (fun r => r.ok)

/-- `failed` count of `write_markdown` (line 192). -/
def mdFailed (rs : List Result) : Nat := rs.countP (fun r => !r.ok && !r.skipped)

/-- `skipped` count of `write_markdown` (line 193). -/
def mdSkipped (rs : List Result) : Nat := rs.countP (fun r => r.skipped)

/-- What one `urlopen` call inside `check_once` of `health_check.py` does
(its try/except branches, lines 14-38). -/
inductive HcOutcome where
  | success (status : Int) (body : String)
  | httpError (code : Int) (reason : String)
  | urlError (reason : String)
  | otherError (msg : String)
  deriving DecidableEq, Repr

/-- Python substring test `sub in s`. -/
def strContains (sub s : String) : Bool := decide (sub.toList <:+: s.toList)

/-- `check_once` of `health_check.py` (lines 13-38).  The status check is
skipped when `expected_status` is falsy (0); the optional JSON-substring
check round-trips the body through `json.loads`/`json.dumps`, modelled by the
environment function `jsonRoundtrip` (`.error` being a parse failure). -/
def check_once (expected : Int) (jsonContains : Option String)
    (jsonRoundtrip : String → Except String String) : HcOutcome → Bool × String
  | .success code body =>
    if expected ≠ 0 ∧ code ≠ expected then
      (false, "unexpected status code: " ++ toString code)
    else
      match jsonContains with
      | none => (true, "ok")
      | some sub =>
        match jsonRoundtrip body with
        | .error e => (false, "failed to parse json: " ++ e)
        | .ok dumped =>
          if strContains sub dumped then (true, "ok")
          else (false, "expected JSON to contain \x27" ++ sub ++ "\x27")
  | .httpError c reason => (false, "HTTPError " ++ toString c ++ ": " ++ reason)
  | .urlError reason => (false, "URLError: " ++ reason)
  | .otherError m => (false, "Error: " ++ m)

/-- The retry loop of `health_check.py`'s `main` (lines 57-69), instrumented
like `runAttempts`: a passing `check_once` exits with code 0 at once; when
attempts remain (`attempt < retries`, line 64) a failure sleeps the current
wait and multiplies it by the backoff; exhaustion exits with code 2.
Returns (exit code, calls made, sleeps). -/
def hcLoop (expected : Int) (jsonContains : Option String)
    (jsonRoundtrip : String → Except String String) (oracle : Nat → HcOutcome) (backoff : Rat) :
    Nat → Nat → Rat → Nat → List Rat → Nat × Nat × List Rat
  | 0, _attempt, _wait, calls, sleeps => (2, calls, sleeps)
  | remaining + 1, attempt, wait, calls, sleeps =>
    if (check_once expected jsonContains jsonRoundtrip (oracle (attempt + 1))).1 then
      (0, calls + 1, sleeps)
    else if remaining = 0 then
      hcLoop expected jsonContains jsonRoundtrip oracle backoff remaining (attempt + 1) wait
        (calls + 1) sleeps
    else
      hcLoop expected jsonContains jsonRoundtrip oracle backoff remaining (attempt + 1)
        (wait * backoff) (calls + 1) (sleeps ++ [wait])

/-- `main` of `health_check.py` after argument parsing: `range(1, retries+1)`
runs `max retries 0` iterations with initial wait 1.0. -/
def hc_main (expected : Int) (retries : Int) (backoff : Rat) (jsonContains : Option String)
    (jsonRoundtrip : String → Except String String) (oracle : Nat → HcOutcome) :
    Nat × Nat × List Rat :=
  hcLoop expected jsonContains jsonRoundtrip oracle backoff retries.toNat 0 1 0 []

/-! ### Helper lemmas -/

theorem errMsg_ne_empty (o : HttpOutcome) (h : isErrorOutcome o = true) : errMsg o ≠ "" := by
  cases o with
  | success s body => simp [isErrorOutcome] at h
  | httpError c reason body =>
    intro hc
    have hd := congrArg String.data hc
    simp [errMsg] at hd
  | urlError reason =>
    intro hc
    have hd := congrArg String.data hc
    simp [errMsg] at hd
  | otherError m =>
    intro hc
    have hd := congrArg String.data hc
    simp [errMsg] at hd

theorem runAttempts_skipped (ep : Endpoint) (url : String) (oracle : Nat → HttpOutcome)
    (durOf : Nat → Nat) (b : Rat) :
    ∀ (r attempt : Nat) (delay : Rat) (le : String) (sc : Option Int) (d : Option Nat)
      (calls : Nat) (sleeps : List Rat),
      (runAttempts ep url oracle durOf b r attempt delay le sc d calls sleeps).result.skipped
        = false := by
  intro r
  induction r with
  | zero => intro attempt delay le sc d calls sleeps; rfl
  | succ n ih =>
    intro attempt delay le sc d calls sleeps
    cases ho : oracle (attempt + 1) with
    | success s body => simp [runAttempts, ho]
    | httpError c reason body =>
      by_cases hn : n = 0 <;> simp [runAttempts, ho, hn, ih]
    | urlError reason =>
      by_cases hn : n = 0 <;> simp [runAttempts, ho, hn, ih]
    | otherError m =>
      by_cases hn : n = 0 <;> simp [runAttempts, ho, hn, ih]

theorem geomList_length (b : Rat) : ∀ (n : Nat) (d : Rat), (geomList d b n).length = n
  | 0, _ => rfl
  | n + 1, d => by simp [geomList, geomList_length b n]

theorem geomList_get (b : Rat) :
    ∀ (n : Nat) (d : Rat) (i : Nat), i < n → (geomList d b n)[i]? = some (d * b ^ i) := by
  intro n
  induction n with
  | zero => intro d i hi; exact absurd hi (Nat.not_lt_zero i)
  | succ n ih =>
    intro d i hi
    cases i with
    | zero => simp [geomList]
    | succ i =>
      have := ih (d * b) i (by omega)
      simp only [geomList, List.getElem?_cons_succ, this, Option.some.injEq]
      ring

theorem runAttempts_step_err (ep : Endpoint) (url : String) (oracle : Nat → HttpOutcome)
    (durOf : Nat → Nat) (b : Rat) (r attempt : Nat) (delay : Rat) (le : String)
    (sc : Option Int) (d : Option Nat) (calls : Nat) (sleeps : List Rat)
    (h : isErrorOutcome (oracle (attempt + 1)) = true) :
    runAttempts ep url oracle durOf b (r + 1 + 1) attempt delay le sc d calls sleeps =
      runAttempts ep url oracle durOf b (r + 1) (attempt + 1) (delay * b)
        (errMsg (oracle (attempt + 1))) (errStatus (oracle (attempt + 1)) sc)
        (some (durOf (attempt + 1))) (calls + 1) (sleeps ++ [delay]) := by
  cases ho : oracle (attempt + 1) with
  | success s body => rw [ho] at h; simp [isErrorOutcome] at h
  | httpError c reason body => simp [runAttempts, ho]
  | urlError reason => simp [runAttempts, ho]
  | otherError m => simp [runAttempts, ho]

theorem runAttempts_allFail (ep : Endpoint) (url : String) (oracle : Nat → HttpOutcome)
    (durOf : Nat → Nat) (b : Rat) :
    ∀ (r attempt : Nat) (delay : Rat) (le : String) (sc : Option Int) (d : Option Nat)
      (calls : Nat) (sleeps : List Rat),
      (∀ j, j < r + 1 → isErrorOutcome (oracle (attempt + 1 + j)) = true) →
      runAttempts ep url oracle durOf b (r + 1) attempt delay le sc d calls sleeps =
        ⟨⟨ep, url, lastStatus oracle sc attempt (r + 1), false, false,
          errMsg (oracle (attempt + (r + 1))), some (durOf (attempt + (r + 1)))⟩,
          calls + (r + 1), sleeps ++ geomList delay b r⟩ := by
  intro r
  induction r with
  | zero =>
    intro attempt delay le sc d calls sleeps h
    have h0 := h 0 (by omega)
    rw [Nat.add_zero] at h0
    have hne := errMsg_ne_empty _ h0
    cases ho : oracle (attempt + 1) with
    | success s body => rw [ho] at h0; simp [isErrorOutcome] at h0
    | httpError c reason body =>
      rw [ho] at hne
      simp [runAttempts, ho, lastStatus, errStatus, geomList, hne]
    | urlError reason =>
      rw [ho] at hne
      simp [runAttempts, ho, lastStatus, errStatus, geomList, hne]
    | otherError m =>
      rw [ho] at hne
      simp [runAttempts, ho, lastStatus, errStatus, geomList, hne]
  | succ n ih =>
    intro attempt delay le sc d calls sleeps h
    have h0 := h 0 (by omega)
    rw [Nat.add_zero] at h0
    rw [runAttempts_step_err ep url oracle durOf b n attempt delay le sc d calls sleeps h0,
      ih (attempt + 1) (delay * b) (errMsg (oracle (attempt + 1)))
        (errStatus (oracle (attempt + 1)) sc) (some (durOf (attempt + 1))) (calls + 1)
        (sleeps ++ [delay]) (fun j hj => by
          have hh := h (j + 1) (by omega)
          rwa [show attempt + 1 + (j + 1) = attempt + 1 + 1 + j by omega] at hh),
      List.append_assoc]
    have h1 : attempt + 1 + (n + 1) = attempt + (n + 1 + 1) := by omega
    have h2 : calls + 1 + (n + 1) = calls + (n + 1 + 1) := by omega
    rw [h1, h2]
    rfl

theorem toList_append (s t : String) : (s ++ t).toList = s.toList ++ t.toList := rfl

theorem rstripSlashes_append_slash (s : String) : rstripSlashes (s ++ "/") = rstripSlashes s := by
  unfold rstripSlashes
  have h1 : ("/" : String).toList = ['/'] := rfl
  rw [toList_append, h1]
  simp [List.dropWhile_cons]

theorem lstripSlashes_slash_append (s : String) :
    lstripSlashes ("/" ++ s) = lstripSlashes s := by
  unfold lstripSlashes
  have h1 : ("/" : String).toList = ['/'] := rfl
  rw [toList_append, h1]
  simp [List.dropWhile_cons]

theorem append_slash_ne_empty (s : String) : s ++ "/" ≠ "" := by
  intro h
  have hd := congrArg String.data h
  simp at hd

theorem build_url_ok_iff (base path url : String) :
    build_url base path = .ok url ↔
      (¬ base = "" ∧ url = rstripSlashes base ++ "/" ++ lstripSlashes path) := by
  unfold build_url
  by_cases h : base = "" <;> simp [h, eq_comm]

theorem run_check_skip (ep : Endpoint) (base : String) (token : Option String) (retries : Int)
    (b : Rat) (oracle : Nat → HttpOutcome) (durOf : Nat → Nat) (h : base ≠ "")
    (hsk : (ep.requires_auth && tokenFalsy token) = true) :
    run_check ep base token retries b oracle durOf =
      .ok ⟨⟨ep, rstripSlashes base ++ "/" ++ lstripSlashes ep.path, none, false, true,
        "Authentication required but no token provided", none⟩, 0, []⟩ := by
  simp [run_check, build_url, h, hsk]

theorem run_check_noskip (ep : Endpoint) (base : String) (token : Option String) (retries : Int)
    (b : Rat) (oracle : Nat → HttpOutcome) (durOf : Nat → Nat) (h : base ≠ "")
    (hsk : (ep.requires_auth && tokenFalsy token) = false) :
    run_check ep base token retries b oracle durOf =
      .ok (runAttempts ep (rstripSlashes base ++ "/" ++ lstripSlashes ep.path) oracle durOf b
        retries.toNat 0 1 "" none none 0 []) := by
  simp [run_check, build_url, h, hsk]

theorem run_check_isOk (ep : Endpoint) (base : String) (token : Option String) (retries : Int)
    (b : Rat) (oracle : Nat → HttpOutcome) (durOf : Nat → Nat) (h : base ≠ "") :
    ∃ tr, run_check ep base token retries b oracle durOf = .ok tr := by
  by_cases hsk : (ep.requires_auth && tokenFalsy token) = true
  · exact ⟨_, run_check_skip ep base token retries b oracle durOf h hsk⟩
  · exact ⟨_, run_check_noskip ep base token retries b oracle durOf h
      (by simpa using hsk)⟩

theorem run_check_ok_cases (ep : Endpoint) (base : String) (token : Option String)
    (retries : Int) (b : Rat) (oracle : Nat → HttpOutcome) (durOf : Nat → Nat)
    (tr : CheckTrace) (h : run_check ep base token retries b oracle durOf = .ok tr) :
    tr = ⟨⟨ep, rstripSlashes base ++ "/" ++ lstripSlashes ep.path, none, false, true,
        "Authentication required but no token provided", none⟩, 0, []⟩ ∨
      tr = runAttempts ep (rstripSlashes base ++ "/" ++ lstripSlashes ep.path) oracle durOf b
        retries.toNat 0 1 "" none none 0 [] := by
  have hbase : base ≠ "" := by
    intro hb0
    rw [hb0] at h
    simp [run_check, build_url] at h
  by_cases hsk : (ep.requires_auth && tokenFalsy token) = true
  · left
    rw [run_check_skip ep base token retries b oracle durOf hbase hsk] at h
    injection h with h
    exact h.symm
  · right
    rw [run_check_noskip ep base token retries b oracle durOf hbase (by simpa using hsk)] at h
    injection h with h
    exact h.symm

theorem run_check_not_skipped_of_ok (ep : Endpoint) (base : String) (token : Option String)
    (retries : Int) (b : Rat) (oracle : Nat → HttpOutcome) (durOf : Nat → Nat)
    (tr : CheckTrace) (h : run_check ep base token retries b oracle durOf = .ok tr) :
    tr.result.ok = true → tr.result.skipped = false := by
  intro hok
  rcases run_check_ok_cases ep base token retries b oracle durOf tr h with htr | htr
  · rw [htr] at hok; simp at hok
  · rw [htr]
    exact runAttempts_skipped ep _ oracle durOf b _ 0 1 "" none none 0 []

theorem run_check_skipped_inv (ep : Endpoint) (base : String) (token : Option String)
    (retries : Int) (b : Rat) (oracle : Nat → HttpOutcome) (durOf : Nat → Nat)
    (tr : CheckTrace) (h : run_check ep base token retries b oracle durOf = .ok tr)
    (hs : tr.result.skipped = true) :
    tr.result.ok = false ∧ tr.result.status_code = none := by
  rcases run_check_ok_cases ep base token retries b oracle durOf tr h with htr | htr
  · rw [htr]
    exact ⟨rfl, rfl⟩
  · rw [htr] at hs
    rw [runAttempts_skipped ep _ oracle durOf b _ 0 1 "" none none 0 []] at hs
    exact absurd hs (by simp)

theorem runAll_ok (base : String) (token : Option String) (retries : Int) (b : Rat)
    (oracles : Nat → Nat → HttpOutcome) (durOf : Nat → Nat) (h : base ≠ "") :
    ∀ (eps : List Endpoint) (idx : Nat),
      ∃ results, runAll base token retries b oracles durOf idx eps = .ok results ∧
        results.length = eps.length := by
  intro eps
  induction eps with
  | nil => intro idx; exact ⟨[], rfl, rfl⟩
  | cons ep rest ih =>
    intro idx
    obtain ⟨more, hm, hlen⟩ := ih (idx + 1)
    obtain ⟨tr, htr⟩ := run_check_isOk ep base token retries b (oracles idx) durOf h
    refine ⟨tr.result :: more, ?_, ?_⟩
    · simp [runAll, htr, hm]
    · simp [hlen]

theorem runAll_ok_imp (base : String) (token : Option String) (retries : Int) (b : Rat)
    (oracles : Nat → Nat → HttpOutcome) (durOf : Nat → Nat) :
    ∀ (eps : List Endpoint) (idx : Nat) (results : List Result),
      runAll base token retries b oracles durOf idx eps = .ok results →
      ∀ r ∈ results, r.ok = true → r.skipped = false := by
  intro eps
  induction eps with
  | nil =>
    intro idx results h r hr
    simp only [runAll] at h
    injection h with h
    subst h
    simp at hr
  | cons ep rest ih =>
    intro idx results h r hr
    simp only [runAll] at h
    cases hrc : run_check ep base token retries b (oracles idx) durOf with
    | error e => rw [hrc] at h; exact absurd h (by simp)
    | ok tr =>
      rw [hrc] at h
      cases hra : runAll base token retries b oracles durOf (idx + 1) rest with
      | error e => rw [hra] at h; exact absurd h (by simp)
      | ok more =>
        rw [hra] at h
        injection h with h
        subst h
        rcases List.mem_cons.mp hr with hr | hr
        · subst hr
          exact run_check_not_skipped_of_ok ep base token retries b (oracles idx) durOf tr hrc
        · exact ih (idx + 1) more hra r hr

theorem md_counts_partition : ∀ (rs : List Result),
    (∀ r ∈ rs, r.ok = true → r.skipped = false) →
    mdPassed rs + mdFailed rs + mdSkipped rs = rs.length := by
  intro rs
  induction rs with
  | nil => intro _; rfl
  | cons r rest ih =>
    intro h
    have hr := h r (by simp)
    have hrest := ih (fun x hx => h x (by simp [hx]))
    unfold mdPassed mdFailed mdSkipped at hrest ⊢
    rw [List.countP_cons, List.countP_cons, List.countP_cons]
    cases hok : r.ok with
    | true =>
      have hsk := hr hok
      simp [hok, hsk]
      omega
    | false =>
      cases hsk : r.skipped <;> simp [hok, hsk] <;> omega

theorem hcLoop_first_ok (expected : Int) (jc : Option String)
    (jr : String → Except String String) (oracle : Nat → HcOutcome) (b : Rat)
    (r attempt : Nat) (wait : Rat) (calls : Nat) (sleeps : List Rat)
    (h : (check_once expected jc jr (oracle (attempt + 1))).1 = true) :
    hcLoop expected jc jr oracle b (r + 1) attempt wait calls sleeps =
      (0, calls + 1, sleeps) := by
  simp [hcLoop, h]

theorem hcLoop_allFail (expected : Int) (jc : Option String)
    (jr : String → Except String String) (oracle : Nat → HcOutcome) (b : Rat) :
    ∀ (r attempt : Nat) (wait : Rat) (calls : Nat) (sleeps : List Rat),
      (∀ j, j < r → (check_once expected jc jr (oracle (attempt + 1 + j))).1 = false) →
      ∃ sl, hcLoop expected jc jr oracle b r attempt wait calls sleeps = (2, calls + r, sl) := by
  intro r
  induction r with
  | zero => intro attempt wait calls sleeps _; exact ⟨sleeps, rfl⟩
  | succ n ih =>
    intro attempt wait calls sleeps h
    have h0 := h 0 (by omega)
    rw [Nat.add_zero] at h0
    by_cases hn : n = 0
    · subst hn
      refine ⟨sleeps, ?_⟩
      simp [hcLoop, h0]
    · obtain ⟨sl, hsl⟩ := ih (attempt + 1) (wait * b) (calls + 1) (sleeps ++ [wait])
        (fun j hj => by
          have hh := h (j + 1) (by omega)
          rwa [show attempt + 1 + (j + 1) = attempt + 1 + 1 + j by omega] at hh)
      refine ⟨sl, ?_⟩
      simp only [hcLoop, h0, Bool.false_eq_true, if_false, hn]
      rw [hsl]
      simp
      omega

/-! ### Claim theorems -/

/-- Claim C3: an endpoint with `requires_auth` checked without a token returns
immediately with `skipped = true`, `ok = false` and no status code, making
zero network calls; and in every `Result` that `run_check` produces,
`skipped = true` implies `ok = false` and an absent status code. -/
theorem c3_skip_invariant :
    (∀ (ep : Endpoint) (base : String) (token : Option String) (retries : Int) (b : Rat)
      (oracle : Nat → HttpOutcome) (durOf : Nat → Nat),
      base ≠ "" → ep.requires_auth = true → tokenFalsy token = true →
      run_check ep base token retries b oracle durOf =
        .ok ⟨⟨ep, rstripSlashes base ++ "/" ++ lstripSlashes ep.path, none, false, true,
          "Authentication required but no token provided", none⟩, 0, []⟩) ∧
    (∀ (ep : Endpoint) (base : String) (token : Option String) (retries : Int) (b : Rat)
      (oracle : Nat → HttpOutcome) (durOf : Nat → Nat) (tr : CheckTrace),
      run_check ep base token retries b oracle durOf = .ok tr →
      tr.result.skipped = true →
      tr.result.ok = false ∧ tr.result.status_code = none) := by
  constructor
  · intro ep base token retries b oracle durOf hb hra ht
    exact run_check_skip ep base token retries b oracle durOf hb (by simp [hra, ht])
  · intro ep base token retries b oracle durOf tr h hs
    exact run_check_skipped_inv ep base token retries b oracle durOf tr h hs

theorem c3_witness :
    run_check ⟨"/secure", true, 200⟩ ("https://api.example.com") none 3 2
      (fun _ => .success 200 ("ok")) (fun _ => 1) =
    .ok ⟨⟨⟨"/secure", true, 200⟩, "https://api.example.com/secure", none, false, true,
      "Authentication required but no token provided", none⟩, 0, []⟩ :=
  c3_skip_invariant.1 ⟨"/secure", true, 200⟩ ("https://api.example.com") none 3 2
    (fun _ => .success 200 ("ok")) (fun _ => 1) (by decide) rfl rfl

/-- Claim C4: `run_check` raises if and only if the base URL is empty; the
raise happens before any network call (with an empty base the outcome does not
depend on the network oracle at all); with a non-empty base URL it always
returns a `Result`, and never throws. -/
theorem c4_raise_iff_empty_base :
    ∀ (ep : Endpoint) (base : String) (token : Option String) (retries : Int) (b : Rat)
      (oracle : Nat → HttpOutcome) (durOf : Nat → Nat),
      ((∃ e, run_check ep base token retries b oracle durOf = .error e) ↔ base = "") ∧
      (base = "" → ∀ (oracle2 : Nat → HttpOutcome) (durOf2 : Nat → Nat),
        run_check ep base token retries b oracle durOf =
          run_check ep base token retries b oracle2 durOf2) ∧
      (base ≠ "" → ∃ tr, run_check ep base token retries b oracle durOf = .ok tr) := by
  intro ep base token retries b oracle durOf
  refine ⟨⟨?_, ?_⟩, ?_, ?_⟩
  · rintro ⟨e, he⟩
    by_contra hb
    obtain ⟨tr, htr⟩ := run_check_isOk ep base token retries b oracle durOf hb
    rw [htr] at he
    exact absurd he (by simp)
  · intro hb
    subst hb
    exact ⟨"Base URL must not be empty", by simp [run_check, build_url]⟩
  · intro hb
    subst hb
    intro oracle2 durOf2
    rfl
  · intro hb
    exact run_check_isOk ep base token retries b oracle durOf hb

theorem c4_witness :
    (∃ e, run_check ⟨"/health", false, 200⟩ ("") none 1 2
      (fun _ => .success 200 ("x")) (fun _ => 1) = .error e) ∧
    (∃ tr, run_check ⟨"/health", false, 200⟩ ("https://api.example.com") none 1 2
      (fun _ => .success 200 ("x")) (fun _ => 1) = .ok tr) :=
  ⟨(c4_raise_iff_empty_base ⟨"/health", false, 200⟩ ("") none 1 2
      (fun _ => .success 200 ("x")) (fun _ => 1)).1.mpr rfl,
   (c4_raise_iff_empty_base ⟨"/health", false, 200⟩ ("https://api.example.com") none 1 2
      (fun _ => .success 200 ("x")) (fun _ => 1)).2.2 (by decide)⟩

/-- Claim C6: `build_url` strips trailing slashes from the base and leading
slashes from the path and joins with exactly one slash, so the result is
invariant under leading/trailing slash variation, and the three example joins
all yield `https://x/y`. -/
theorem c6_url_join :
    (∀ (b p : String), b ≠ "" →
      build_url (b ++ "/") p = build_url b p ∧ build_url b ("/" ++ p) = build_url b p) ∧
    build_url ("https://x/") ("/y") = .ok ("https://x/y") ∧
    build_url ("https://x") ("y") = .ok ("https://x/y") ∧
    build_url ("https://x/") ("y") = .ok ("https://x/y") := by
  refine ⟨?_, by decide, by decide, by decide⟩
  intro b p hb
  constructor
  · simp only [build_url, if_neg (append_slash_ne_empty b), if_neg hb,
      rstripSlashes_append_slash]
  · simp only [build_url, if_neg hb, lstripSlashes_slash_append]

theorem c6_witness :
    build_url ("https://x" ++ "/") ("y") = build_url ("https://x") ("y") ∧
    build_url ("https://x") ("/" ++ "y") = build_url ("https://x") ("y") :=
  c6_url_join.1 "https://x" "y" (by decide)

/-- Claim C8: calling `run_check` with `retries ≤ 0` on an endpoint that is
not skipped for auth makes zero network calls and returns `ok = false`,
`skipped = false`, no status code, no duration, and message `Unknown error`. -/
theorem c8_nonpositive_retries (ep : Endpoint) (base : String) (token : Option String)
    (retries : Int) (b : Rat) (oracle : Nat → HttpOutcome) (durOf : Nat → Nat)
    (hr : retries ≤ 0) (hb : base ≠ "")
    (hsk : (ep.requires_auth && tokenFalsy token) = false) :
    run_check ep base token retries b oracle durOf =
      .ok ⟨⟨ep, rstripSlashes base ++ "/" ++ lstripSlashes ep.path, none, false, false,
        "Unknown error", none⟩, 0, []⟩ := by
  rw [run_check_noskip ep base token retries b oracle durOf hb hsk,
    Int.toNat_of_nonpos hr]
  rfl

theorem c8_witness :
    run_check ⟨"/health", false, 200⟩ ("https://api.example.com") none (-2) 2
      (fun _ => .urlError ("boom")) (fun _ => 1) =
    .ok ⟨⟨⟨"/health", false, 200⟩, "https://api.example.com/health", none, false, false,
      "Unknown error", none⟩, 0, []⟩ :=
  c8_nonpositive_retries ⟨"/health", false, 200⟩ ("https://api.example.com") none (-2) 2
    (fun _ => .urlError ("boom")) (fun _ => 1) (by decide) (by decide) rfl

/-- Claim C9: with a CLI `--expected-status` different from 200, `main`
overwrites the expected status of every endpoint whose `expected_status`
equals 200, including endpoints whose paths-file line explicitly declared
`status=200` (the parse of such a line is indistinguishable from the default,
so the explicit 200 cannot be preserved alongside a different CLI default). -/
theorem c9_default_status_override :
    (∀ (cli : Int) (eps : List Endpoint) (ep : Endpoint),
      cli ≠ 200 → ep ∈ eps → ep.expected_status = 200 →
      ({ ep with expected_status := cli } : Endpoint) ∈ applyDefaultStatus cli eps) ∧
    parse_paths_file ("/health status=200") = .ok [⟨"/health", false, 200⟩] ∧
    applyDefaultStatus 404 [⟨"/health", false, 200⟩] = [⟨"/health", false, 404⟩] := by
  refine ⟨?_, by decide, by decide⟩
  intro cli eps ep hcli hmem hst
  unfold applyDefaultStatus
  refine List.mem_map.mpr ⟨ep, hmem, ?_⟩
  rw [if_pos ⟨hst, hcli⟩]

theorem c9_witness :
    ({ path := "/health", requires_auth := false, expected_status := 404 } : Endpoint) ∈
      applyDefaultStatus 404 [⟨"/health", false, 200⟩] :=
  c9_default_status_override.1 404 [⟨"/health", false, 200⟩] ⟨"/health", false, 200⟩
    (by decide) (by decide) rfl

/-- Claim C10: for every result list the smoke runner produces, the Markdown
summary counts partition the results: passed + failed + skipped equals the
total number of endpoints, because no `run_check` result has both `ok = true`
and `skipped = true`. -/
theorem c10_markdown_partition :
    ∀ (base : String) (paths : List String) (pf : Option String) (token : Option String)
      (retries : Int) (b : Rat) (cli : Int) (oracles : Nat → Nat → HttpOutcome)
      (durOf : Nat → Nat) (code : Nat) (results : List Result),
      smoke_main base paths pf token retries b cli oracles durOf = .ok (code, results) →
      mdPassed results + mdFailed results + mdSkipped results = results.length := by
  intro base paths pf token retries b cli oracles durOf code results h
  unfold smoke_main at h
  cases hl : load_endpoints paths pf with
  | error e =>
    rw [hl] at h
    have h2 : Except.ok ((1 : Nat), ([] : List Result)) = Except.ok (code, results) := h
    injection h2 with h2
    rw [Prod.mk.injEq] at h2
    rw [← h2.2]
    rfl
  | ok eps =>
    rw [hl] at h
    have h2 : (match runAll base token retries b oracles durOf 0 (applyDefaultStatus cli eps) with
      | Except.error e => Except.error e
      | Except.ok rs => Except.ok ((0 : Nat), rs)) = Except.ok (code, results) := h
    cases hra : runAll base token retries b oracles durOf 0 (applyDefaultStatus cli eps) with
    | error e => rw [hra] at h2; exact absurd h2 (by simp)
    | ok rs =>
      rw [hra] at h2
      injection h2 with h2
      rw [Prod.mk.injEq] at h2
      rw [← h2.2]
      exact md_counts_partition rs
        (runAll_ok_imp base token retries b oracles durOf (applyDefaultStatus cli eps) 0 rs hra)

theorem c10_witness :
    mdPassed [⟨⟨"/a", false, 200⟩, "https://x/a", some 200, true, false,
        "Status 200 (expected 200)", some 1⟩] +
      mdFailed [⟨⟨"/a", false, 200⟩, "https://x/a", some 200, true, false,
        "Status 200 (expected 200)", some 1⟩] +
      mdSkipped [⟨⟨"/a", false, 200⟩, "https://x/a", some 200, true, false,
        "Status 200 (expected 200)", some 1⟩] =
    [(⟨⟨"/a", false, 200⟩, "https://x/a", some 200, true, false,
        "Status 200 (expected 200)", some 1⟩ : Result)].length :=
  c10_markdown_partition ("https://x") [("/a")] none none 1 2 200
    (fun _ _ => .success 200 ("b")) (fun _ => 1) 0
    [⟨⟨"/a", false, 200⟩, "https://x/a", some 200, true, false,
      "Status 200 (expected 200)", some 1⟩] (by decide)

theorem runAttempts_first_success (ep : Endpoint) (url : String) (oracle : Nat → HttpOutcome)
    (durOf : Nat → Nat) (b : Rat) (m : Nat) (s : Int) (body : String)
    (h1 : oracle 1 = .success s body) :
    runAttempts ep url oracle durOf b (m + 1) 0 1 "" none none 0 [] =
      ⟨⟨ep, url, some s, s == ep.expected_status, false,
        if s == ep.expected_status then
          "Status " ++ toString s ++ " (expected " ++ toString ep.expected_status ++ ")"
        else
          "Unexpected status " ++ toString s ++ " (expected " ++
            toString ep.expected_status ++ "); body preview: " ++ take2000 body,
        some (durOf 1)⟩, 1, []⟩ := by
  have h1g : oracle (0 + 1) = .success s body := by rwa [Nat.zero_add]
  simp [runAttempts, h1, h1g]

/-- Claim C1 (counterexample): a wrong-status response that `urlopen` delivers
without raising (here 200 against expected 201) is an immediate terminal
failure of `run_check`: with 5 retries configured only one call is made and no
retries happen, contradicting the claim that a wrong-status response always
exhausts the remaining retries and is never an immediate terminal failure. -/
theorem c1_counterexample :
    run_check ⟨"/status", false, 201⟩ ("https://api.example.com") none 5 2
      (fun _ => .success 200 ("body-text")) (fun _ => 7) =
    .ok ⟨⟨⟨"/status", false, 201⟩, "https://api.example.com/status", some 200, false, false,
      "Unexpected status 200 (expected 201); body preview: body-text", some 7⟩, 1, []⟩ ∧
    (run_check ⟨"/status", false, 201⟩ ("https://api.example.com") none 5 2
      (fun _ => .success 200 ("body-text")) (fun _ => 7)).map CheckTrace.calls ≠ .ok 5 :=
  ⟨by decide, by decide⟩

/-- Claim C1 (amended): in `run_check`, a wrong-status response surfacing as an
`HTTPError` (which is how urllib delivers every status at least 400) is treated
as a failed attempt whose message carries a body preview truncated to 2000
characters, and the remaining retries are exhausted before `ok = false` is
returned; a wrong-status response that `urlopen` delivers without raising
returns immediately as a terminal failure with `ok = false` (also with a
truncated body preview in the message). -/
theorem c1_wrong_status_behaviour :
    (∀ (ep : Endpoint) (base : String) (token : Option String) (n : Nat) (b : Rat)
      (c : Nat → Int) (re bd : Nat → String) (oracle : Nat → HttpOutcome) (durOf : Nat → Nat),
      base ≠ "" → (ep.requires_auth && tokenFalsy token) = false → 1 ≤ n →
      (∀ k, 1 ≤ k → k ≤ n → oracle k = .httpError (c k) (re k) (bd k)) →
      ∃ tr, run_check ep base token (n : Int) b oracle durOf = .ok tr ∧
        tr.calls = n ∧ tr.result.ok = false ∧
        tr.result.message = "HTTPError " ++ toString (c n) ++ ": " ++ re n ++
          "; body preview: " ++ take2000 (bd n)) ∧
    (∀ (ep : Endpoint) (base : String) (token : Option String) (n : Nat) (b : Rat)
      (s : Int) (body : String) (oracle : Nat → HttpOutcome) (durOf : Nat → Nat),
      base ≠ "" → (ep.requires_auth && tokenFalsy token) = false → 1 ≤ n →
      oracle 1 = .success s body → s ≠ ep.expected_status →
      ∃ tr, run_check ep base token (n : Int) b oracle durOf = .ok tr ∧
        tr.calls = 1 ∧ tr.sleeps = [] ∧ tr.result.ok = false ∧
        tr.result.message = "Unexpected status " ++ toString s ++ " (expected " ++
          toString ep.expected_status ++ "); body preview: " ++ take2000 body) := by
  constructor
  · intro ep base token n b c re bd oracle durOf hb hsk hn horacle
    obtain ⟨m, rfl⟩ : ∃ m, n = m + 1 := ⟨n - 1, by omega⟩
    rw [run_check_noskip ep base token ((m + 1 : Nat) : Int) b oracle durOf hb hsk,
      Int.toNat_ofNat]
    have hall : ∀ j, j < m + 1 → isErrorOutcome (oracle (0 + 1 + j)) = true := by
      intro j hj
      rw [show (0 : Nat) + 1 + j = j + 1 by omega, horacle (j + 1) (by omega) (by omega)]
      rfl
    rw [runAttempts_allFail ep _ oracle durOf b m 0 1 "" none none 0 [] hall]
    refine ⟨_, rfl, by simp, rfl, ?_⟩
    show errMsg (oracle (0 + (m + 1))) =
      "HTTPError " ++ toString (c (m + 1)) ++ ": " ++ re (m + 1) ++
        "; body preview: " ++ take2000 (bd (m + 1))
    rw [show (0 : Nat) + (m + 1) = m + 1 by omega,
      horacle (m + 1) (by omega) (by omega)]
    rfl
  · intro ep base token n b s body oracle durOf hb hsk hn h1 hne
    obtain ⟨m, rfl⟩ : ∃ m, n = m + 1 := ⟨n - 1, by omega⟩
    rw [run_check_noskip ep base token ((m + 1 : Nat) : Int) b oracle durOf hb hsk,
      Int.toNat_ofNat,
      runAttempts_first_success ep _ oracle durOf b m s body h1]
    have hbe : (s == ep.expected_status) = false := by
      simp [hne]
    refine ⟨_, rfl, rfl, rfl, by simp [hbe], ?_⟩
    simp [hbe]

theorem c1_witness :
    (∃ tr, run_check ⟨"/health", false, 200⟩ ("https://api.example.com") none 3 2
        (fun _ => .httpError 500 ("Internal Server Error") ("oops")) (fun _ => 4) = .ok tr ∧
      tr.calls = 3 ∧ tr.result.ok = false ∧
      tr.result.message = "HTTPError " ++ toString (500 : Int) ++ ": " ++
        "Internal Server Error" ++ "; body preview: " ++ take2000 ("oops")) ∧
    (∃ tr, run_check ⟨"/redirect", false, 204⟩ ("https://api.example.com") none 5 2
        (fun _ => .success 301 ("moved")) (fun _ => 7) = .ok tr ∧
      tr.calls = 1 ∧ tr.sleeps = [] ∧ tr.result.ok = false ∧
      tr.result.message = "Unexpected status " ++ toString (301 : Int) ++ " (expected " ++
        toString (204 : Int) ++ "); body preview: " ++ take2000 ("moved")) :=
  ⟨c1_wrong_status_behaviour.1 ⟨"/health", false, 200⟩ ("https://api.example.com") none 3 2
      (fun _ => 500) (fun _ => "Internal Server Error") (fun _ => "oops")
      (fun _ => .httpError 500 ("Internal Server Error") ("oops")) (fun _ => 4)
      (by decide) rfl (by decide) (fun _ _ _ => rfl),
   c1_wrong_status_behaviour.2 ⟨"/redirect", false, 204⟩ ("https://api.example.com") none 5 2
      301 ("moved") (fun _ => .success 301 ("moved")) (fun _ => 7)
      (by decide) rfl (by decide) rfl (by decide)⟩

/-- Claim C2 (counterexample): maxRetries = 3, the server status never matches
the expected one (it answers 200 against expected 204 on every attempt), yet
`run_check` makes only one HTTP call and sleeps zero times, because a
delivered wrong-status response returns immediately instead of being retried;
the claim demands exactly 3 calls and 2 sleeps here. -/
theorem c2_counterexample :
    run_check ⟨"/health", false, 204⟩ ("https://api.example.com") none 3 2
      (fun _ => .success 200 ("whatever")) (fun _ => 5) =
    .ok ⟨⟨⟨"/health", false, 204⟩, "https://api.example.com/health", some 200, false, false,
      "Unexpected status 200 (expected 204); body preview: whatever", some 5⟩, 1, []⟩ ∧
    (run_check ⟨"/health", false, 204⟩ ("https://api.example.com") none 3 2
      (fun _ => .success 200 ("whatever")) (fun _ => 5)).map CheckTrace.calls ≠ .ok 3 :=
  ⟨by decide, by decide⟩

/-- Claim C2 (amended): when every one of the `n ≥ 1` attempts fails with an
exception (an `HTTPError` response or a transport error — the only failure
kinds the loop retries), `run_check` makes exactly `n` HTTP calls and `n - 1`
sleeps, the `k`-th sleep (1-indexed, before attempt `k + 1`) lasts
`initialDelay * backoff^(k-1)` with `initialDelay = 1`, and the result has
`ok = false` with the message of the last recorded failure. -/
theorem c2_retry_schedule (ep : Endpoint) (base : String) (token : Option String)
    (n : Nat) (b : Rat) (oracle : Nat → HttpOutcome) (durOf : Nat → Nat)
    (hb : base ≠ "") (hsk : (ep.requires_auth && tokenFalsy token) = false)
    (hn : 1 ≤ n) (hfail : ∀ k, 1 ≤ k → k ≤ n → isErrorOutcome (oracle k) = true) :
    ∃ tr, run_check ep base token (n : Int) b oracle durOf = .ok tr ∧
      tr.calls = n ∧ tr.sleeps.length = n - 1 ∧
      (∀ i, i < n - 1 → tr.sleeps[i]? = some (b ^ i)) ∧
      tr.result.ok = false ∧ tr.result.message = errMsg (oracle n) := by
  obtain ⟨m, rfl⟩ : ∃ m, n = m + 1 := ⟨n - 1, by omega⟩
  rw [run_check_noskip ep base token ((m + 1 : Nat) : Int) b oracle durOf hb hsk,
    Int.toNat_ofNat]
  have hall : ∀ j, j < m + 1 → isErrorOutcome (oracle (0 + 1 + j)) = true := by
    intro j hj
    have hh := hfail (j + 1) (by omega) (by omega)
    rwa [show (0 : Nat) + 1 + j = j + 1 by omega]
  rw [runAttempts_allFail ep _ oracle durOf b m 0 1 "" none none 0 [] hall]
  refine ⟨_, rfl, by simp, ?_, ?_, rfl, ?_⟩
  · show ([] ++ geomList 1 b m).length = m + 1 - 1
    simp [geomList_length]
  · intro i hi
    show ([] ++ geomList 1 b m)[i]? = some (b ^ i)
    rw [List.nil_append, geomList_get b m 1 i (by omega), one_mul]
  · show errMsg (oracle (0 + (m + 1))) = errMsg (oracle (m + 1))
    rw [show (0 : Nat) + (m + 1) = m + 1 by omega]

theorem c2_witness :
    ∃ tr, run_check ⟨"/health", false, 200⟩ ("https://api.example.com") none 3 2
        (fun _ => .httpError 503 ("Service Unavailable") ("busy")) (fun _ => 7) = .ok tr ∧
      tr.calls = 3 ∧ tr.sleeps.length = 3 - 1 ∧
      (∀ i, i < 3 - 1 → tr.sleeps[i]? = some ((2 : Rat) ^ i)) ∧
      tr.result.ok = false ∧
      tr.result.message = errMsg (.httpError 503 ("Service Unavailable") ("busy")) :=
  c2_retry_schedule ⟨"/health", false, 200⟩ ("https://api.example.com") none 3 2
    (fun _ => .httpError 503 ("Service Unavailable") ("busy")) (fun _ => 7)
    (by decide) rfl (by decide) (fun _ _ _ => rfl)

/-- Claim C7 (counterexample): an endpoint with expected status 404 whose
server answers 404 — a response matching the expected status — does not make
`run_check` return `ok = true` after one call: urllib surfaces the 404 as an
`HTTPError`, the except branch never compares it with the expected status, and
the check burns all retries (2 calls, 1 sleep) and returns `ok = false`. -/
theorem c7_counterexample :
    run_check ⟨"/missing", false, 404⟩ ("https://api.example.com") none 2 2
      (fun _ => .httpError 404 ("Not Found") ("gone")) (fun _ => 3) =
    .ok ⟨⟨⟨"/missing", false, 404⟩, "https://api.example.com/missing", some 404, false, false,
      "HTTPError 404: Not Found; body preview: gone", some 3⟩, 2, [1]⟩ ∧
    (run_check ⟨"/missing", false, 404⟩ ("https://api.example.com") none 2 2
      (fun _ => .httpError 404 ("Not Found") ("gone")) (fun _ => 3)).map
        (fun tr => tr.result.ok) ≠ .ok true :=
  ⟨by decide, by decide⟩

/-- Claim C7 (amended): when the first attempt receives a response that
`urlopen` delivers without raising and whose status matches the expected one,
`run_check` returns `ok = true` after exactly one HTTP call with no sleep;
likewise `health_check.py` exits 0 after one call and no sleep when the first
`check_once` passes. -/
theorem c7_first_success :
    (∀ (ep : Endpoint) (base : String) (token : Option String) (n : Nat) (b : Rat)
      (body : String) (oracle : Nat → HttpOutcome) (durOf : Nat → Nat),
      base ≠ "" → (ep.requires_auth && tokenFalsy token) = false → 1 ≤ n →
      oracle 1 = .success ep.expected_status body →
      ∃ tr, run_check ep base token (n : Int) b oracle durOf = .ok tr ∧
        tr.result.ok = true ∧ tr.calls = 1 ∧ tr.sleeps = []) ∧
    (∀ (expected : Int) (n : Nat) (b : Rat) (jc : Option String)
      (jr : String → Except String String) (oracle : Nat → HcOutcome),
      1 ≤ n → (check_once expected jc jr (oracle 1)).1 = true →
      hc_main expected (n : Int) b jc jr oracle = (0, 1, [])) := by
  constructor
  · intro ep base token n b body oracle durOf hb hsk hn h1
    obtain ⟨m, rfl⟩ : ∃ m, n = m + 1 := ⟨n - 1, by omega⟩
    rw [run_check_noskip ep base token ((m + 1 : Nat) : Int) b oracle durOf hb hsk,
      Int.toNat_ofNat,
      runAttempts_first_success ep _ oracle durOf b m ep.expected_status body h1]
    exact ⟨_, rfl, by simp, rfl, rfl⟩
  · intro expected n b jc jr oracle hn h1
    obtain ⟨m, rfl⟩ : ∃ m, n = m + 1 := ⟨n - 1, by omega⟩
    unfold hc_main
    rw [Int.toNat_ofNat]
    have h1g : (check_once expected jc jr (oracle (0 + 1))).1 = true := by
      rwa [Nat.zero_add]
    rw [hcLoop_first_ok expected jc jr oracle b m 0 1 0 [] h1g]

theorem c7_witness :
    (∃ tr, run_check ⟨"/health", false, 200⟩ ("https://api.example.com") none 3 2
        (fun _ => .success 200 ("all good")) (fun _ => 6) = .ok tr ∧
      tr.result.ok = true ∧ tr.calls = 1 ∧ tr.sleeps = []) ∧
    hc_main 200 3 2 none (fun s => .ok s) (fun _ => .success 200 ("hi")) = (0, 1, []) :=
  ⟨c7_first_success.1 ⟨"/health", false, 200⟩ ("https://api.example.com") none 3 2
      ("all good") (fun _ => .success 200 ("all good")) (fun _ => 6)
      (by decide) rfl (by decide) rfl,
   c7_first_success.2 200 3 2 none (fun s => .ok s) (fun _ => .success 200 ("hi"))
      (by decide) rfl⟩

theorem smoke_main_ok_eps (base : String) (paths : List String) (pf : Option String)
    (token : Option String) (retries : Int) (b : Rat) (cli : Int)
    (oracles : Nat → Nat → HttpOutcome) (durOf : Nat → Nat) (eps : List Endpoint)
    (hl : load_endpoints paths pf = .ok eps) :
    smoke_main base paths pf token retries b cli oracles durOf =
      (match runAll base token retries b oracles durOf 0 (applyDefaultStatus cli eps) with
       | Except.error e => Except.error e
       | Except.ok rs => Except.ok (0, rs)) := by
  unfold smoke_main
  rw [hl]

/-- Claim C5 (counterexample): with an empty `--base-url` and one endpoint,
the endpoint configuration loads successfully, yet the smoke runner does not
exit 0: `run_check` raises the uncaught `ValueError` from `build_url` (200 is
outside the `try` that guards only `load_endpoints`), so the process dies with
a traceback instead of returning 0. -/
theorem c5_counterexample :
    load_endpoints [("/health")] none = .ok [⟨"/health", false, 200⟩] ∧
    smoke_main ("") [("/health")] none none 1 2 200
      (fun _ _ => .urlError ("x")) (fun _ => 0) =
      .error ("Base URL must not be empty") :=
  ⟨by decide, by decide⟩

/-- Claim C5 (amended): when the endpoint configuration loads successfully and
the base URL is non-empty, the smoke runner's exit code is always 0 regardless
of how many endpoint checks fail, with one result per configured endpoint (one
endpoint's retry exhaustion never aborts the remaining checks); configuration
errors caught while loading endpoints exit with code 1; and the
single-endpoint health check exits with code 2 after its retries are
exhausted. -/
theorem c5_exit_codes :
    (∀ (base : String) (paths : List String) (pf : Option String) (token : Option String)
      (retries : Int) (b : Rat) (cli : Int) (oracles : Nat → Nat → HttpOutcome)
      (durOf : Nat → Nat) (eps : List Endpoint),
      base ≠ "" → load_endpoints paths pf = .ok eps →
      ∃ results, smoke_main base paths pf token retries b cli oracles durOf =
        .ok (0, results) ∧ results.length = eps.length) ∧
    (∀ (base : String) (paths : List String) (pf : Option String) (token : Option String)
      (retries : Int) (b : Rat) (cli : Int) (oracles : Nat → Nat → HttpOutcome)
      (durOf : Nat → Nat) (e : String),
      load_endpoints paths pf = .error e →
      smoke_main base paths pf token retries b cli oracles durOf = .ok (1, [])) ∧
    (∀ (expected : Int) (n : Nat) (b : Rat) (jc : Option String)
      (jr : String → Except String String) (oracle : Nat → HcOutcome),
      (∀ k, 1 ≤ k → k ≤ n → (check_once expected jc jr (oracle k)).1 = false) →
      ∃ sl, hc_main expected (n : Int) b jc jr oracle = (2, n, sl)) := by
  refine ⟨?_, ?_, ?_⟩
  · intro base paths pf token retries b cli oracles durOf eps hb hl
    obtain ⟨results, hra, hlen⟩ :=
      runAll_ok base token retries b oracles durOf hb (applyDefaultStatus cli eps) 0
    refine ⟨results, ?_, ?_⟩
    · rw [smoke_main_ok_eps base paths pf token retries b cli oracles durOf eps hl, hra]
    · rw [hlen]
      unfold applyDefaultStatus
      rw [List.length_map]
  · intro base paths pf token retries b cli oracles durOf e he
    unfold smoke_main
    rw [he]
  · intro expected n b jc jr oracle h
    have hall : ∀ j, j < n → (check_once expected jc jr (oracle (0 + 1 + j))).1 = false := by
      intro j hj
      have hh := h (j + 1) (by omega) (by omega)
      rwa [show (0 : Nat) + 1 + j = j + 1 by omega]
    obtain ⟨sl, hsl⟩ := hcLoop_allFail expected jc jr oracle b n 0 1 0 [] hall
    refine ⟨sl, ?_⟩
    unfold hc_main
    rw [Int.toNat_ofNat, hsl, Nat.zero_add]

theorem c5_witness :
    (∃ results, smoke_main ("https://x") [("/a")] none none 1 2 200
        (fun _ _ => .success 200 ("b")) (fun _ => 1) = .ok (0, results) ∧
      results.length = ([⟨"/a", false, 200⟩] : List Endpoint).length) ∧
    smoke_main ("https://x") [] none none 1 2 200
      (fun _ _ => .urlError ("x")) (fun _ => 1) = .ok (1, []) ∧
    (∃ sl, hc_main 200 3 2 none (fun s => .ok s)
      (fun _ => .httpError 503 ("unavailable")) = (2, 3, sl)) :=
  ⟨c5_exit_codes.1 ("https://x") [("/a")] none none 1 2 200
      (fun _ _ => .success 200 ("b")) (fun _ => 1) [⟨"/a", false, 200⟩]
      (by decide) (by decide),
   c5_exit_codes.2.1 ("https://x") [] none none 1 2 200
      (fun _ _ => .urlError ("x")) (fun _ => 1)
      ("No endpoints specified. Provide --paths or --paths-file.") (by decide),
   c5_exit_codes.2.2 200 3 2 none (fun s => .ok s)
      (fun _ => .httpError 503 ("unavailable")) (fun _ _ _ => rfl)⟩
